import Mathlib

/-!
Shallow embedding of `src/html_renderer.py` from the ComfyUI-HTMLRenderer
repository, together with theorems settling the specification claims about
the template engine, the still-frame capture pipeline, the video recording
pipeline and the transcode stage.

Python strings are modelled as `List Char` (sequences of code points),
Python dicts as insertion-ordered association lists, the filesystem and the
external tools (Chromium via html2image, Playwright, ffmpeg) as explicit
environment records, and exceptions as `Except`.
-/

namespace HTMLRenderer

/-- Model of a Python `str`: the sequence of its code points. -/
abbrev PyStr := List Char

/-- View a Lean string literal as a `PyStr`. -/
def toL (s : String) : PyStr := s.data

/-!
Section: Template engine

`FixedHTMLFrameGenerator._replace_parameters` (src/html_renderer.py lines
475-480) substitutes placeholders by repeated `str.replace`:

    for key, value in values.items():
        placeholder = f"{{{{{key}}}}}"
        html = html.replace(placeholder, str(value))

Python `str.replace` makes a single left-to-right pass replacing
non-overlapping occurrences of the pattern.  `pyReplaceGo` implements that
pass with an explicit fuel argument (the length of the scanned string) so
that the definition is structural and evaluates inside the kernel.
-/

/-- One left-to-right replacement pass over the remaining string; `fuel`
bounds the number of scanning steps and is kept at least the length of the
remaining string by `pyReplace`. -/
def pyReplaceGo (p r : PyStr) : Nat → PyStr → PyStr
  | _, [] => []
  | 0, s => s
  | fuel + 1, c :: cs =>
    if p.isPrefixOf (c :: cs) then r ++ pyReplaceGo p r fuel ((c :: cs).drop p.length)
    else c :: pyReplaceGo p r fuel cs

/-- Model of Python `s.replace(p, r)`.  The source only ever replaces
placeholder patterns of the shape `ph k` (length at least four) and the
fixed pattern `".mp4"`, so the empty-pattern case (where CPython would
interleave `r` between characters) is mapped to the identity and never
exercised. -/
def pyReplace (s p r : PyStr) : PyStr :=
  if p = [] then s else pyReplaceGo p r s.length s

/-- Placeholder text for a key, the literal `{{key}}` built by
`_replace_parameters`. -/
def ph (k : PyStr) : PyStr := '\x7b' :: '\x7b' :: (k ++ ['\x7d', '\x7d'])

/-- Model of `FixedHTMLFrameGenerator._replace_parameters`: fold Python
`str.replace` over the context entries in insertion order; values are
already coerced to strings by `str(value)`. -/
def replace_parameters (html : PyStr) (values : List (PyStr × PyStr)) : PyStr :=
  values.foldl (fun h kv => pyReplace h (ph kv.1) kv.2) html

/-!
Section: Python dict model

`render_frame` merges JSON extension parameters into a Python dict and
`generate_frame` merges that dict into the substitution context with
`dict.update`.  A dict is modelled as an insertion-ordered association
list with unique keys: assignment to an existing key updates its value in
place, assignment to a fresh key appends it.
-/

/-- Python `d[k] = v`: replace the value of the first binding of `k`,
keeping its position, or append a new binding. -/
def dictSet : List (PyStr × PyStr) → PyStr → PyStr → List (PyStr × PyStr)
  | [], k, v => [(k, v)]
  | (k₀, v₀) :: rest, k, v =>
    if k₀ = k then (k₀, v) :: rest else (k₀, v₀) :: dictSet rest k v

/-- Python `d[k]` (as an optional lookup of the first binding). -/
def dictLookup : List (PyStr × PyStr) → PyStr → Option PyStr
  | [], _ => none
  | (k₀, v₀) :: rest, k => if k₀ = k then some v₀ else dictLookup rest k

/-- Python `d.update(e)`: assign every binding of `e` into `d` in order. -/
def dictUpdate (d e : List (PyStr × PyStr)) : List (PyStr × PyStr) :=
  e.foldl (fun acc kv => dictSet acc kv.1 kv.2) d

/-!
Section: Still-frame capture pipeline

`HTMLFrameRenderer.render_frame` (lines 369-458) together with the inner
`FixedHTMLFrameGenerator` (lines 463-563).  Image tensors are modelled up
to per-frame content: a ComfyUI IMAGE is a batch of frames, and the code
also tolerates a single unbatched frame.  Chromium sessions created by
`Html2Image(...)` are numbered by a ghost counter so that distinct
constructions are distinguishable.
-/

/-- The height compensation constant `HTMLFrameRenderer.CHROMIUM_HEIGHT_OFFSET`. -/
def CHROMIUM_HEIGHT_OFFSET : Nat := 87

/-- A constructed `Html2Image` capture session: its requested surface size
and a ghost identifier numbering the construction. -/
structure Session where
  width : Nat
  height : Nat
  id : Nat
deriving DecidableEq

/-- The inner `FixedHTMLFrameGenerator`: requested geometry plus the lazily
created capture session (`self.hti`, initially `None`). -/
structure Generator where
  width : Nat
  height : Nat
  hti : Option Session
deriving DecidableEq

/-- Model of `FixedHTMLFrameGenerator._ensure_hti` (lines 482-498): construct the
`Html2Image` session only when `self.hti is None`.  Returns the updated
generator, the session subsequently used, and the updated construction
counter. -/
def ensure_hti (g : Generator) (render_width render_height : Nat) (counter : Nat) :
    Generator × Session × Nat :=
  match g.hti with
  | none =>
    let s : Session := ⟨render_width, render_height, counter⟩
    ({ g with hti := some s }, s, counter + 1)
  | some s => (g, s, counter)

/-- Result of one `generate_frame` call: the generator and counter after the
call, the session the screenshot was taken with, the surface size Chromium
was asked for, and the crop box applied to the raw capture on success
(`none` when the temporary screenshot file was not produced, in which case
`generate_frame` raises). -/
structure GenResult where
  g : Generator
  counter : Nat
  sessionId : Nat
  surface : Nat × Nat
  cropBox : Option (Nat × Nat × Nat × Nat)
deriving DecidableEq

/-- Model of `FixedHTMLFrameGenerator.generate_frame` (lines 500-563), geometry and
session aspects: compensate the height by `CHROMIUM_HEIGHT_OFFSET`, ensure
the session, screenshot, and crop the raw capture to
`(0, 0, self.width, self.height)`.  `fileProduced` tells whether the
temporary screenshot file appeared; if not, the function raises. -/
def generate_frame (g₀ : Generator) (counter : Nat) (fileProduced : Bool) : GenResult :=
  let render_height := g₀.height + CHROMIUM_HEIGHT_OFFSET
  let (g₁, s, counter₁) := ensure_hti g₀ g₀.width render_height counter
  { g := g₁, counter := counter₁, sessionId := s.id, surface := (s.width, s.height),
    cropBox := if fileProduced then some (0, 0, g₀.width, g₀.height) else none }

/-- An input or output image tensor: a 4-dimensional batch of frames or a
single 3-dimensional frame. -/
inductive ImageTensor (F : Type) where
  | batched (frames : List F)
  | single (f : F)
deriving DecidableEq

/-- Environment of one still-frame `render_frame` invocation: whether the
temporary screenshot appears, whether loading/saving the rendered bitmap
succeeds, whether `shutil.rmtree` on the temporary directory succeeds, the
rendered frame content and the path the final bitmap is saved under. -/
structure StillEnv (F : Type) where
  fileProduced : Bool
  loadSaveOk : Bool
  rmtreeOk : Bool
  renderedFrame : F
  savedPath : String

/-- Observable outcome of one still-frame `render_frame` invocation. -/
structure StillOutcome (F : Type) where
  retImage : ImageTensor F
  retPath : String
  rmtreeCalled : Bool
  tempRemoved : Bool
  capture : Option (Nat × (Nat × Nat) × (Nat × Nat × Nat × Nat))
  arrayDims : Option (Nat × Nat × Nat)
  counter : Nat

/-- The part of `render_frame` after the input image has been unbatched
(line 378 rebinds `image` to `image[0]`): create the per-call generator,
call `generate_frame`, on success load the cropped bitmap (a PIL image of
the crop-box size, hence a `(height, width, 3)` array after RGB
conversion), save it, and best-effort remove the temporary directory; on
any failure fall into the `except` clause, which returns the current
`image` with a batch dimension restored and an empty path. -/
def renderAfterUnbatch {F : Type} (env : StillEnv F) (cur : F) (w h : Nat) (counter : Nat) :
    StillOutcome F :=
  let g := Generator.mk w h none
  let r := generate_frame g counter env.fileProduced
  match r.cropBox with
  | some box =>
    if env.loadSaveOk then
      { retImage := .batched [env.renderedFrame], retPath := env.savedPath,
        rmtreeCalled := true, tempRemoved := env.rmtreeOk,
        capture := some (r.sessionId, r.surface, box),
        arrayDims := some (box.2.2.2 - box.2.1, box.2.2.1 - box.1, 3),
        counter := r.counter }
    else
      { retImage := .batched [cur], retPath := "", rmtreeCalled := false,
        tempRemoved := false, capture := none, arrayDims := none, counter := r.counter }
  | none =>
    { retImage := .batched [cur], retPath := "", rmtreeCalled := false,
      tempRemoved := false, capture := none, arrayDims := none, counter := r.counter }

/-- Model of `HTMLFrameRenderer.render_frame` (lines 369-458).  A 4-dimensional
input is unbatched to its first frame; indexing an empty batch raises at
once and the `except` clause returns the untouched input with an empty
path. -/
def render_frame {F : Type} (env : StillEnv F) (image : ImageTensor F) (w h : Nat)
    (counter : Nat) : StillOutcome F :=
  match image with
  | .batched [] =>
    { retImage := .batched [], retPath := "", rmtreeCalled := false, tempRemoved := false,
      capture := none, arrayDims := none, counter := counter }
  | .batched (f :: _) => renderAfterUnbatch env f w h counter
  | .single f => renderAfterUnbatch env f w h counter

/-- Decimal string of a natural number, the effect of Python `str()` on the
`output_width`/`output_height` integers. -/
def natStr (n : Nat) : PyStr := (toString n).data

/-- Lines 400-409 of `render_frame`: after `json.loads(ext_json)` (malformed
input already downgraded to the empty dict), the geometry is written into
the extension dict:

    ext_params["width"] = output_width
    ext_params["height"] = output_height
-/
def buildExtParams (parsed : List (PyStr × PyStr)) (output_width output_height : Nat) :
    List (PyStr × PyStr) :=
  dictSet (dictSet parsed (toL "width") (natStr output_width))
    (toL "height") (natStr output_height)

/-- The Python prefixes checked by `generate_frame` before prefixing
`file://` to a local image path. -/
def urlPrefixes : List PyStr := [toL "http://", toL "https://", toL "file://"]

/-- Line 508 of `generate_frame`: local image paths are passed through with
a literal `file://` prefix, URLs and `file://` references unchanged. -/
def imageContextValue (image : PyStr) : PyStr :=
  if image ≠ [] ∧ urlPrefixes.all (fun p => ¬ p.isPrefixOf image) then
    toL "file://" ++ image
  else image

/-- Lines 504-513 of `generate_frame`: the substitution context is the dict
of the three fixed fields updated with the extension dict. -/
def generate_frame_context (title text image : PyStr) (ext : List (PyStr × PyStr)) :
    List (PyStr × PyStr) :=
  dictUpdate [(toL "title", title), (toL "text", text), (toL "image", imageContextValue image)]
    ext

/-- Model of `_build_html_content` (lines 1150-1206): substitute the fixed
placeholders by chained `str.replace` calls, then the extension parameters
in insertion order exactly as `_replace_parameters` does, then inject the
animation-speed script before the closing body tag.  The script text is
assembled from the speed multipliers and animation data; its content is
irrelevant to every claim, so it is abstracted into a parameter. -/
def build_html_content (template title text duration fps current_time image_url : PyStr)
    (ext : List (PyStr × PyStr)) (animation_script : PyStr) : PyStr :=
  let h₁ := pyReplace template (ph (toL "title")) title
  let h₂ := pyReplace h₁ (ph (toL "text")) text
  let h₃ := pyReplace h₂ (ph (toL "duration")) duration
  let h₄ := pyReplace h₃ (ph (toL "fps")) fps
  let h₅ := pyReplace h₄ (ph (toL "current_time")) current_time
  let h₆ := pyReplace h₅ (ph (toL "image_url")) image_url
  let h₇ := replace_parameters h₆ ext
  pyReplace h₇ (toL "</body>") (animation_script ++ toL "</body>")

/-!
Section: Transcode stage

`HTMLVideoRecorderPlaywright._convert_to_mp4` (lines 1274-1327).  The
filesystem and the ffmpeg binary are an explicit environment; Python
exceptions escaping the method become `Except.error`.
-/

/-- Python exceptions that `_convert_to_mp4` can raise. -/
inductive PyError where
  | fileNotFound (msg : String)
  | generic (msg : String)
deriving DecidableEq

/-- Environment of one transcode invocation. -/
structure ConvEnv where
  fileExists : String → Bool
  ffmpegAvailable : Bool
  ffmpegExitCode : Nat

/-- Observable outcome of a completed (non-raising) transcode invocation.
`localOutputPath` is the method-local `output_path` variable after the
fallback rewrites; the Python method returns `None`, so this value is
never handed back to the caller. -/
structure ConvOutcome where
  cmd : List String
  copies : List (String × String)
  localOutputPath : String
deriving DecidableEq

/-- Python `s.replace(p, r)` on `String`, via the `List Char` model. -/
def pyReplaceStr (s p r : String) : String :=
  ⟨pyReplace s.data p.data r.data⟩

/-- Python `s.endswith(p)` on `String`. -/
def pyEndsWith (s p : String) : Bool := p.data.isSuffixOf s.data

/-- Model of `_convert_to_mp4`: raise `FileNotFoundError` when the input file is
missing (re-raised by the dedicated handler) or when the ffmpeg binary
cannot be invoked at all (`subprocess.run` raises `FileNotFoundError`,
which the dedicated handler also re-raises); on nonzero exit status copy
the still-existing input unchanged, to a sibling `.webm` path when the
input is WebM, otherwise onto the requested output path. -/
def convert_to_mp4 (env : ConvEnv) (input_path output_path : String) (fps : Nat) :
    Except PyError ConvOutcome :=
  if env.fileExists input_path = false then
    .error (.fileNotFound input_path)
  else if env.ffmpegAvailable = false then
    .error (.fileNotFound "ffmpeg")
  else
    let cmd := ["ffmpeg", "-i", input_path, "-c:v", "libx264", "-preset", "medium",
      "-crf", "23", "-r", toString fps, "-pix_fmt", "yuv420p", "-movflags", "+faststart",
      output_path, "-y"]
    if env.ffmpegExitCode ≠ 0 then
      if pyEndsWith input_path ".webm" then
        let fallback := pyReplaceStr output_path ".mp4" ".webm"
        .ok { cmd := cmd, copies := [(input_path, fallback)], localOutputPath := fallback }
      else
        .ok { cmd := cmd, copies := [(input_path, output_path)],
              localOutputPath := output_path }
    else
      .ok { cmd := cmd, copies := [], localOutputPath := output_path }

/-!
Section: Video recording pipeline

`HTMLVideoRecorderPlaywright.record_video` (lines 926-1072).  The
asynchronous Playwright session, the filesystem and the host directories
are an explicit environment.  The method returns a
`(video_path, frames_count, video_info_json)` triple; the JSON blob is
modelled structurally as an ordered object.
-/

/-- A JSON scalar appearing in the metadata blob. -/
inductive JVal where
  | s (v : String)
  | int (v : Int)
  | q (v : ℚ)
deriving DecidableEq

/-- A JSON object, in key order. -/
abbrev JObj := List (String × JVal)

/-- Python `int()` applied to a nonnegative numeric value: truncation
toward zero, modelled on exact rationals. -/
def pyInt (x : ℚ) : Int := x.num.tdiv x.den

/-- Line 1056: `text[:100] + "..." if len(text) > 100 else text`. -/
def text_preview (t : String) : String :=
  if t.data.length > 100 then String.mk (t.data.take 100) ++ "..." else t

/-- Environment of one `record_video` invocation. -/
structure VideoEnv where
  tempDir : String
  writeFailure : Option String
  recordResult : Except String String
  pathExists : String → Bool
  webmFiles : List String
  ffmpegAvailable : Bool
  ffmpegExitCode : Nat
  folderPathsOk : Bool
  outputDir : String
  timestamp : String
  copyOk : Bool

/-- Observable outcome of one `record_video` invocation. -/
structure RecordOutcome where
  video_path : String
  frames_count : Int
  video_info : JObj
  copies : List (String × String)
  tempRemoved : Bool

/-- Line 1019: the requested transcode output path inside the temporary
directory. -/
def mp4Path (env : VideoEnv) : String := env.tempDir ++ "/output.mp4"

/-- Lines 1031-1033: the timestamped destination inside the host output
directory. -/
def destPath (env : VideoEnv) (output_filename : String) : String :=
  env.outputDir ++ "/" ++ output_filename ++ "_" ++ env.timestamp ++ ".mp4"

/-- Lines 1023-1042: `final_video_path` starts as the requested `.mp4`
path; when saving to the output folder is enabled and `folder_paths`
imports, it is rebound to the destination before the copy is attempted, so
it stays the destination even if the copy itself fails (the handler only
logs). -/
def finalVideoPath (env : VideoEnv) (save_to_output : Bool) (output_filename : String) :
    String :=
  if save_to_output then
    if env.folderPathsOk then destPath env output_filename else mp4Path env
  else mp4Path env

/-- The `shutil.copy2` calls performed by the save-to-output block. -/
def saveCopiesOf (env : VideoEnv) (save_to_output : Bool) (output_filename : String) :
    List (String × String) :=
  if save_to_output then
    if env.folderPathsOk then
      if env.copyOk then [(mp4Path env, destPath env output_filename)] else []
    else []
  else []

/-- Lines 1009-1016: take the path reported by the recording thread when
it is non-empty and exists, otherwise fall back to the first `.webm` file
of the temporary directory, otherwise raise `FileNotFoundError`. -/
def locateVideoFile (env : VideoEnv) (video₀ : String) : Except String String :=
  if video₀ ≠ "" ∧ env.pathExists video₀ = true then .ok video₀
  else
    match env.webmFiles with
    | [] => .error ("FileNotFoundError: no video file found in " ++ env.tempDir)
    | f :: _ => .ok (env.tempDir ++ "/" ++ f)

/-- Lines 1048-1062: the metadata blob of a successful recording. -/
def videoInfoOf (env : VideoEnv) (title text : String) (duration : ℚ) (fps : Nat)
    (output_width output_height : Nat) (rotation_speed scale_speed scroll_speed : ℚ)
    (save_to_output : Bool) (output_filename : String) : JObj :=
  [("video_path", .s (finalVideoPath env save_to_output output_filename)),
   ("frames_count", .int (pyInt (duration * (fps : ℚ)))),
   ("fps", .int fps), ("duration_seconds", .q duration),
   ("width", .int output_width), ("height", .int output_height),
   ("title", .s title), ("text_preview", .s (text_preview text)),
   ("timestamp", .s env.timestamp), ("image_rotation_speed", .q rotation_speed),
   ("title_scale_speed", .q scale_speed), ("text_scroll_speed", .q scroll_speed)]

/-- The body of `record_video` inside its `try` block (lines 938-1067):
image preprocessing and JSON parsing never raise (both are wrapped in
their own handlers), writing the HTML can raise, the recording thread
either hands back a path or re-raises its error, a missing recorded file
falls back to the first `.webm` in the temporary directory or raises
`FileNotFoundError`, transcoding may raise, and saving to the output
folder is best-effort. -/
def recordBody (env : VideoEnv) (title text : String) (duration : ℚ) (fps : Nat)
    (output_width output_height : Nat) (rotation_speed scale_speed scroll_speed : ℚ)
    (save_to_output : Bool) (output_filename : String) : Except String RecordOutcome :=
  match env.writeFailure with
  | some e => .error e
  | none =>
    match env.recordResult with
    | .error e => .error e
    | .ok video₀ =>
      match locateVideoFile env video₀ with
      | .error e => .error e
      | .ok video_path =>
        match convert_to_mp4 ⟨env.pathExists, env.ffmpegAvailable, env.ffmpegExitCode⟩
            video_path (mp4Path env) fps with
        | .error (.fileNotFound m) => .error ("FileNotFoundError: " ++ m)
        | .error (.generic m) => .error m
        | .ok conv =>
          .ok { video_path := finalVideoPath env save_to_output output_filename,
                frames_count := pyInt (duration * (fps : ℚ)),
                video_info := videoInfoOf env title text duration fps output_width
                  output_height rotation_speed scale_speed scroll_speed save_to_output
                  output_filename,
                copies := conv.copies ++ saveCopiesOf env save_to_output output_filename,
                tempRemoved := false }

/-- Model of `record_video` (lines 926-1072): the body with its top-level handler.
Any exception is converted to the degraded triple
`("", 0, json.dumps({"error": str(e)}))`; the temporary directory is never
removed on either path (the method contains no cleanup call). -/
def record_video (env : VideoEnv) (title text : String) (duration : ℚ) (fps : Nat)
    (output_width output_height : Nat) (rotation_speed scale_speed scroll_speed : ℚ)
    (save_to_output : Bool) (output_filename : String) : RecordOutcome :=
  match recordBody env title text duration fps output_width output_height
      rotation_speed scale_speed scroll_speed save_to_output output_filename with
  | .ok r => r
  | .error e =>
    { video_path := "", frames_count := 0, video_info := [("error", .s e)],
      copies := [], tempRemoved := false }

/-!
Supporting lemmas about the embedded operations.
-/

/-- The scanning pass ignores the exact amount of fuel as long as it is at
least the length of the remaining string. -/
theorem pyReplaceGo_fuel (p r : PyStr) (hp : p ≠ []) :
    ∀ (n : Nat) (s : PyStr) (f₁ f₂ : Nat), s.length ≤ n → s.length ≤ f₁ → s.length ≤ f₂ →
      pyReplaceGo p r f₁ s = pyReplaceGo p r f₂ s := by
  intro n
  induction n with
  | zero =>
    intro s f₁ f₂ hs _ _
    have : s = [] := List.length_eq_zero.mp (Nat.le_zero.mp hs)
    subst this
    cases f₁ <;> cases f₂ <;> rfl
  | succ n ih =>
    intro s f₁ f₂ hs h₁ h₂
    cases s with
    | nil => cases f₁ <;> cases f₂ <;> rfl
    | cons c cs =>
      have hplen : 1 ≤ p.length := by
        cases p with
        | nil => exact absurd rfl hp
        | cons _ _ => simp
      simp only [List.length_cons] at hs h₁ h₂
      cases f₁ with
      | zero => omega
      | succ m₁ =>
        cases f₂ with
        | zero => omega
        | succ m₂ =>
          simp only [pyReplaceGo]
          by_cases hpre : p.isPrefixOf (c :: cs) = true
          · simp only [hpre, if_true]
            have hlen : ((c :: cs).drop p.length).length ≤ cs.length := by
              simp only [List.length_drop, List.length_cons]
              omega
            have := ih ((c :: cs).drop p.length) m₁ m₂ (by omega) (by omega) (by omega)
            rw [this]
          · rw [if_neg hpre, if_neg hpre, ih cs m₁ m₂ (by omega) (by omega) (by omega)]

/-- Replacing inside the empty string yields the empty string. -/
theorem pyReplace_nil (p r : PyStr) : pyReplace [] p r = [] := by
  unfold pyReplace
  split <;> rfl

/-- When the pattern matches at the head, the replacement is emitted and
scanning resumes after the matched occurrence. -/
theorem pyReplace_head (p r s : PyStr) (hp : p ≠ []) (hpre : p.isPrefixOf s = true) :
    pyReplace s p r = r ++ pyReplace (s.drop p.length) p r := by
  cases s with
  | nil =>
    cases p with
    | nil => exact absurd rfl hp
    | cons x xs => simp [List.isPrefixOf] at hpre
  | cons c cs =>
    have hplen : 1 ≤ p.length := by
      cases p with
      | nil => exact absurd rfl hp
      | cons _ _ => simp
    unfold pyReplace
    rw [if_neg hp, if_neg hp]
    simp only [List.length_cons, pyReplaceGo, hpre, if_true]
    congr 1
    exact pyReplaceGo_fuel p r hp ((c :: cs).drop p.length).length _ cs.length _
      le_rfl (by simp only [List.length_drop, List.length_cons]; omega) le_rfl

/-- When the pattern does not match at the head, the head character is kept
and scanning continues. -/
theorem pyReplace_skip (p r : PyStr) (c : Char) (cs : PyStr) (hp : p ≠ [])
    (hpre : ¬ p.isPrefixOf (c :: cs) = true) :
    pyReplace (c :: cs) p r = c :: pyReplace cs p r := by
  unfold pyReplace
  rw [if_neg hp, if_neg hp]
  simp only [List.length_cons, pyReplaceGo]
  rw [if_neg hpre]

/-- A pattern that does not occur in the string leaves it unchanged. -/
theorem pyReplace_absent (p r s : PyStr) (hp : p ≠ []) (h : ¬ p <:+: s) :
    pyReplace s p r = s := by
  induction s with
  | nil => exact pyReplace_nil p r
  | cons c cs ih =>
    have h₁ : ¬ p.isPrefixOf (c :: cs) = true := by
      intro hb
      obtain ⟨t, ht⟩ := List.isPrefixOf_iff_prefix.mp hb
      exact h ⟨[], t, by simpa using ht⟩
    rw [pyReplace_skip p r c cs hp h₁, ih (fun hi => h ( List.infix_cons hi))]

/-- Replacing the whole string by the pattern it equals yields exactly the
replacement. -/
theorem pyReplace_self (p r : PyStr) (hp : p ≠ []) : pyReplace p p r = r := by
  have hpre : p.isPrefixOf p = true := List.isPrefixOf_iff_prefix.mpr ( List.prefix_refl p)
  rw [pyReplace_head p r p hp hpre]
  simp [List.drop_length, pyReplace_nil]

/-- A head occurrence of the pattern is replaced and scanning resumes on the
remainder of the string. -/
theorem pyReplace_append_head (p r y : PyStr) (hp : p ≠ []) :
    pyReplace (p ++ y) p r = r ++ pyReplace y p r := by
  have hpre : p.isPrefixOf (p ++ y) = true :=
    List.isPrefixOf_iff_prefix.mpr ( List.prefix_append p y)
  rw [pyReplace_head p r (p ++ y) hp hpre, List.drop_left]

theorem ph_ne_nil (k : PyStr) : ph k ≠ [] := by simp [ph]

theorem replace_parameters_nil (t : PyStr) : replace_parameters t [] = t := rfl

theorem replace_parameters_cons (t k v : PyStr) (rest : List (PyStr × PyStr)) :
    replace_parameters t ((k, v) :: rest) = replace_parameters (pyReplace t (ph k) v) rest := rfl

theorem replace_parameters_append_single (t : PyStr) (ctx : List (PyStr × PyStr))
    (k v : PyStr) :
    replace_parameters t (ctx ++ [(k, v)]) = pyReplace (replace_parameters t ctx) (ph k) v := by
  simp [replace_parameters, List.foldl_append]

theorem dictLookup_set_self (d : List (PyStr × PyStr)) (k v : PyStr) :
    dictLookup (dictSet d k v) k = some v := by
  induction d with
  | nil => simp [dictSet, dictLookup]
  | cons kv rest ih =>
    obtain ⟨k₀, v₀⟩ := kv
    by_cases h : k₀ = k
    · simp [dictSet, dictLookup, h]
    · simp [dictSet, dictLookup, h, ih]

theorem dictLookup_set_ne (d : List (PyStr × PyStr)) (k v k' : PyStr) (h : k ≠ k') :
    dictLookup (dictSet d k v) k' = dictLookup d k' := by
  induction d with
  | nil => simp [dictSet, dictLookup, h]
  | cons kv rest ih =>
    obtain ⟨k₀, v₀⟩ := kv
    by_cases h₀ : k₀ = k
    · subst h₀
      simp [dictSet, dictLookup, h]
    · simp [dictSet, dictLookup, h₀, ih]

theorem mem_keys_dictSet (d : List (PyStr × PyStr)) (k v k' : PyStr)
    (h : k' ∈ (dictSet d k v).map Prod.fst) : k' ∈ d.map Prod.fst ∨ k' = k := by
  induction d with
  | nil => simpa [dictSet] using h
  | cons kv rest ih =>
    obtain ⟨k₀, v₀⟩ := kv
    by_cases h₀ : k₀ = k
    · simp only [dictSet, h₀, if_true, List.map_cons, List.mem_cons] at h ⊢
      tauto
    · simp only [dictSet, h₀, if_false, List.map_cons, List.mem_cons] at h ⊢
      rcases h with h | h
      · exact Or.inl (Or.inl h)
      · rcases ih h with h' | h'
        · exact Or.inl (Or.inr h')
        · exact Or.inr h'

theorem nodup_keys_dictSet (d : List (PyStr × PyStr)) (k v : PyStr)
    (h : (d.map Prod.fst).Nodup) : ((dictSet d k v).map Prod.fst).Nodup := by
  induction d with
  | nil => simp [dictSet]
  | cons kv rest ih =>
    obtain ⟨k₀, v₀⟩ := kv
    simp only [List.map_cons, List.nodup_cons] at h
    by_cases h₀ : k₀ = k
    · subst h₀
      simpa [dictSet] using h
    · simp only [dictSet, h₀, if_false, List.map_cons, List.nodup_cons]
      refine ⟨fun hmem => ?_, ih h.2⟩
      rcases mem_keys_dictSet rest k v k₀ hmem with h' | h'
      · exact h.1 h'
      · exact h₀ h'

theorem dictLookup_update_of_not_mem (d e : List (PyStr × PyStr)) (k : PyStr)
    (h : k ∉ e.map Prod.fst) : dictLookup (dictUpdate d e) k = dictLookup d k := by
  induction e generalizing d with
  | nil => rfl
  | cons kv rest ih =>
    obtain ⟨k₀, v₀⟩ := kv
    simp only [List.map_cons, List.mem_cons] at h
    push_neg at h
    show dictLookup (dictUpdate (dictSet d k₀ v₀) rest) k = dictLookup d k
    rw [ih (dictSet d k₀ v₀) h.2, dictLookup_set_ne d k₀ v₀ k (fun hk => h.1 hk.symm)]

/-- Looking up a key of `e` in `d.update(e)` returns the value `e` binds it
to, provided the keys of `e` are unique (as they are for a Python dict). -/
theorem dictLookup_update_of_mem (d e : List (PyStr × PyStr)) (k v : PyStr)
    (hnd : (e.map Prod.fst).Nodup) (h : dictLookup e k = some v) :
    dictLookup (dictUpdate d e) k = some v := by
  induction e generalizing d with
  | nil => simp [dictLookup] at h
  | cons kv rest ih =>
    obtain ⟨k₀, v₀⟩ := kv
    simp only [List.map_cons, List.nodup_cons] at hnd
    show dictLookup (dictUpdate (dictSet d k₀ v₀) rest) k = some v
    by_cases h₀ : k₀ = k
    · subst h₀
      simp only [dictLookup, if_true] at h
      rw [dictLookup_update_of_not_mem (dictSet d k₀ v₀) rest k₀ hnd.1,
        dictLookup_set_self]
      simpa using h
    · simp only [dictLookup, h₀, if_false] at h
      exact ih (dictSet d k₀ v₀) hnd.2 h

/-!
Section: Claim C1: height-truncation compensation
-/

/-- C1 (confirmed): for every still-frame render with requested geometry
`(width, height)` whose capture pipeline runs to completion, the capture
surface requested from Chromium is exactly `(width, height + 87)` with
`CHROMIUM_HEIGHT_OFFSET = 87`, the raw capture is cropped to the top-left
rectangle `(0, 0, width, height)`, and the bitmap loaded back has array
dimensions exactly `(height, width, 3)`. -/
theorem C1_height_truncation_compensation {F : Type} (env : StillEnv F) (f : F)
    (rest : List F) (w h counter : Nat)
    (hfile : env.fileProduced = true) (hload : env.loadSaveOk = true) :
    CHROMIUM_HEIGHT_OFFSET = 87 ∧
    (render_frame env (.batched (f :: rest)) w h counter).capture =
      some (counter, (w, h + 87), (0, 0, w, h)) ∧
    (render_frame env (.batched (f :: rest)) w h counter).arrayDims = some (h, w, 3) := by
  refine ⟨rfl, ?_, ?_⟩ <;>
    simp [render_frame, renderAfterUnbatch, generate_frame, ensure_hti, hfile, hload,
      CHROMIUM_HEIGHT_OFFSET]

/-- C1 witness: the end-to-end scenario at geometry (200, 100): the surface
request is (200, 187) and the output array is (100, 200, 3). -/
theorem C1_height_truncation_compensation_witness :
    CHROMIUM_HEIGHT_OFFSET = 87 ∧
    (render_frame (⟨true, true, true, 7, "out.png"⟩ : StillEnv Nat)
      (.batched [1]) 200 100 0).capture = some (0, (200, 100 + 87), (0, 0, 200, 100)) ∧
    (render_frame (⟨true, true, true, 7, "out.png"⟩ : StillEnv Nat)
      (.batched [1]) 200 100 0).arrayDims = some (100, 200, 3) :=
  C1_height_truncation_compensation ⟨true, true, true, 7, "out.png"⟩ 1 [] 200 100 0 rfl rfl

/-!
Section: Claim C4: still-frame capture-session reuse
-/

/-- C4 counterexample: two consecutive `render_frame` calls on the same
renderer instance.  The claim asserts that the second call reuses the
session handle created by the first; in fact `render_frame` constructs a
fresh `FixedHTMLFrameGenerator` (with `hti = None`) on every call, so the
second call screenshots with a newly constructed session (ghost id 1, a
second construction) instead of the first session (ghost id 0). -/
theorem C4_session_reuse_counterexample :
    (render_frame (⟨true, true, true, 5, "o"⟩ : StillEnv Nat) (.batched [0]) 8 6 0).capture =
      some (0, (8, 93), (0, 0, 8, 6)) ∧
    (render_frame (⟨true, true, true, 5, "o"⟩ : StillEnv Nat) (.batched [0]) 8 6
        (render_frame (⟨true, true, true, 5, "o"⟩ : StillEnv Nat)
          (.batched [0]) 8 6 0).counter).capture =
      some (1, (8, 93), (0, 0, 8, 6)) ∧
    (1 : Nat) ≠ 0 := by
  refine ⟨rfl, rfl, by decide⟩

/-- C4 (corrected): the session handle is created lazily on first use of a
`FixedHTMLFrameGenerator` and reused by later `generate_frame` calls on
that same generator object; but `render_frame` constructs a fresh
generator on every call, so every `render_frame` call on the same
`HTMLFrameRenderer` instance constructs one new session instead of
reusing the previous one. -/
theorem C4_session_reuse_amended :
    (∀ (w h counter : Nat) (ok : Bool),
        (generate_frame ⟨w, h, none⟩ counter ok).counter = counter + 1 ∧
        (generate_frame ⟨w, h, none⟩ counter ok).g.hti =
          some ⟨w, h + CHROMIUM_HEIGHT_OFFSET, counter⟩ ∧
        (generate_frame ⟨w, h, none⟩ counter ok).sessionId = counter) ∧
    (∀ (g : Generator) (s : Session) (counter : Nat) (ok : Bool), g.hti = some s →
        (generate_frame g counter ok).counter = counter ∧
        (generate_frame g counter ok).sessionId = s.id ∧
        (generate_frame g counter ok).g = g) ∧
    (∀ {F : Type} (env : StillEnv F) (f : F) (rest : List F) (w h counter : Nat),
        (render_frame env (.batched (f :: rest)) w h counter).counter = counter + 1) := by
  refine ⟨?_, ?_, ?_⟩
  · intro w h counter ok
    exact ⟨rfl, rfl, rfl⟩
  · intro g s counter ok hg
    obtain ⟨gw, gh, ghti⟩ := g
    cases ghti with
    | none => simp at hg
    | some s₀ =>
      obtain rfl : s₀ = s := by simpa using hg
      exact ⟨rfl, rfl, rfl⟩
  · intro F env f rest w h counter
    cases hfp : env.fileProduced <;>
      cases hl : env.loadSaveOk <;>
        simp [render_frame, renderAfterUnbatch, generate_frame, ensure_hti, hfp, hl]

/-- C4 witness: concrete instances of the three amended conjuncts. -/
theorem C4_session_reuse_amended_witness :
    (generate_frame ⟨4, 5, none⟩ 0 true).counter = 0 + 1 ∧
    (generate_frame ⟨4, 92, some ⟨4, 92, 7⟩⟩ 9 true).sessionId = 7 ∧
    (render_frame (⟨true, true, true, 3, "o"⟩ : StillEnv Nat)
      (.batched [0]) 4 5 2).counter = 2 + 1 :=
  ⟨(C4_session_reuse_amended.1 4 5 0 true).1,
    (C4_session_reuse_amended.2.1 ⟨4, 92, some ⟨4, 92, 7⟩⟩ ⟨4, 92, 7⟩ 9 true rfl).2.1,
    C4_session_reuse_amended.2.2 ⟨true, true, true, 3, "o"⟩ 0 [] 4 5 2⟩

/-!
Section: Claim C6: still-frame failure degradation
-/

/-- C6 counterexample: on a failing render of a two-image batch, the
returned tensor is the first frame only (with the batch dimension
restored), not the original input unchanged, because line 378 rebinds
`image` to `image[0]` before anything can raise. -/
theorem C6_failure_degradation_counterexample :
    (render_frame (⟨false, true, true, 99, "p"⟩ : StillEnv Nat)
      (.batched [1, 2]) 10 20 0).retImage ≠ ImageTensor.batched [1, 2] ∧
    (render_frame (⟨false, true, true, 99, "p"⟩ : StillEnv Nat)
      (.batched [1, 2]) 10 20 0).retImage = ImageTensor.batched [1] ∧
    (render_frame (⟨false, true, true, 99, "p"⟩ : StillEnv Nat)
      (.batched [1, 2]) 10 20 0).retPath = "" := by
  refine ⟨by decide, rfl, rfl⟩

/-- C6 (corrected): on any internal failure `render_frame` does not
propagate the exception and returns an empty path, but the returned tensor
is the first frame of the input batch with the batch dimension restored
(an empty batch is returned untouched); it equals the original input
exactly when the input is a single-image batch. -/
theorem C6_failure_degradation_amended {F : Type} (env : StillEnv F)
    (image : ImageTensor F) (w h counter : Nat)
    (hfail : env.fileProduced = false ∨ env.loadSaveOk = false) :
    (render_frame env image w h counter).retPath = "" ∧
    (render_frame env image w h counter).retImage =
      (match image with
       | .batched [] => .batched []
       | .batched (f :: _) => .batched [f]
       | .single f => .batched [f]) ∧
    (∀ f : F, image = .batched [f] →
      (render_frame env image w h counter).retImage = image) := by
  have hcore : ∀ cur : F,
      (renderAfterUnbatch env cur w h counter).retPath = "" ∧
      (renderAfterUnbatch env cur w h counter).retImage = .batched [cur] := by
    intro cur
    rcases hfail with hf | hl
    · constructor <;> simp [renderAfterUnbatch, generate_frame, ensure_hti, hf]
    · cases hfp : env.fileProduced <;>
        constructor <;>
          simp [renderAfterUnbatch, generate_frame, ensure_hti, hfp, hl]
  match image with
  | .batched [] => exact ⟨rfl, rfl, fun f hf => by cases hf⟩
  | .batched (f :: rest) =>
    refine ⟨(hcore f).1, (hcore f).2, fun f₀ hf => ?_⟩
    obtain ⟨rfl, rfl⟩ : f = f₀ ∧ rest = [] := by
      constructor <;> injection hf with h₁ <;> simp_all
    exact (hcore f).2
  | .single f => exact ⟨(hcore f).1, (hcore f).2, fun f₀ hf => by cases hf⟩

/-- C6 witness: for a single-image batch and a failing render, the output
is the original input unchanged together with the empty path. -/
theorem C6_failure_degradation_amended_witness :
    (render_frame (⟨false, true, true, 9, "p"⟩ : StillEnv Nat)
      (.batched [5]) 3 4 0).retPath = "" ∧
    (render_frame (⟨false, true, true, 9, "p"⟩ : StillEnv Nat)
      (.batched [5]) 3 4 0).retImage = ImageTensor.batched [5] :=
  ⟨(C6_failure_degradation_amended ⟨false, true, true, 9, "p"⟩ (.batched [5]) 3 4 0
      (Or.inl rfl)).1,
    (C6_failure_degradation_amended ⟨false, true, true, 9, "p"⟩ (.batched [5]) 3 4 0
      (Or.inl rfl)).2.2 5 rfl⟩

/-!
Section: Claim C3: template substitution contract
-/

/-- C3 counterexample: substitution does re-resolve substituted values.
With template `{{a}}` and context `a ↦ {{b}}, b ↦ X` (in insertion
order), the value substituted for `a` contains the `{{b}}` token of
context key `b`, and the subsequent pass for `b` substitutes inside it:
the output is `X`, not the verbatim `{{b}}` that the claim requires. -/
theorem C3_substitution_counterexample :
    replace_parameters (ph (toL "a")) [(toL "a", ph (toL "b")), (toL "b", toL "X")] =
      toL "X" ∧
    toL "X" ≠ ph (toL "b") := by
  refine ⟨by decide, by decide⟩

/-- C3 (corrected): `resolve` processes context entries sequentially in
insertion order; each step makes one left-to-right `str.replace` pass for
`{{key}}` over the current string, so a placeholder occurrence at the scan
point is replaced and other characters are kept; a step whose placeholder
does not occur in the current string leaves it unchanged (so context keys
with no matching placeholder are silently ignored, and placeholders with
no matching key stay verbatim as long as no later value interferes); but a
substituted value that contains `{{x}}` for a context key `x` appearing
later in the order IS itself substituted. -/
theorem C3_substitution_contract_amended :
    (∀ t : PyStr, replace_parameters t [] = t) ∧
    (∀ (t k v : PyStr) (rest : List (PyStr × PyStr)),
        replace_parameters t ((k, v) :: rest) =
          replace_parameters (pyReplace t (ph k) v) rest) ∧
    (∀ (s k v : PyStr), ¬ ph k <:+: s → pyReplace s (ph k) v = s) ∧
    (∀ (k v y : PyStr), pyReplace (ph k ++ y) (ph k) v = v ++ pyReplace y (ph k) v) ∧
    (∀ (k v : PyStr) (c : Char) (cs : PyStr), ¬ (ph k).isPrefixOf (c :: cs) = true →
        pyReplace (c :: cs) (ph k) v = c :: pyReplace cs (ph k) v) ∧
    (∀ (k₁ k₂ v : PyStr),
        replace_parameters (ph k₁) [(k₁, ph k₂), (k₂, v)] = v) := by
  refine ⟨replace_parameters_nil, replace_parameters_cons, ?_, ?_, ?_, ?_⟩
  · intro s k v h
    exact pyReplace_absent (ph k) v s (ph_ne_nil k) h
  · intro k v y
    exact pyReplace_append_head (ph k) v y (ph_ne_nil k)
  · intro k v c cs h
    exact pyReplace_skip (ph k) v c cs (ph_ne_nil k) h
  · intro k₁ k₂ v
    rw [replace_parameters_cons, pyReplace_self (ph k₁) (ph k₂) (ph_ne_nil k₁),
      replace_parameters_cons, pyReplace_self (ph k₂) v (ph_ne_nil k₂),
      replace_parameters_nil]

/-- C3 witness: concrete instances of the amended contract, including the
no-matching-placeholder no-op and the later-key re-resolution. -/
theorem C3_substitution_contract_amended_witness :
    pyReplace (toL "xy") (ph (toL "k")) (toL "v") = toL "xy" ∧
    replace_parameters (ph (toL "a")) [(toL "a", ph (toL "b")), (toL "b", toL "Z")] =
      toL "Z" :=
  ⟨C3_substitution_contract_amended.2.2.1 (toL "xy") (toL "k") (toL "v") (by decide),
    C3_substitution_contract_amended.2.2.2.2.2 (toL "a") (toL "b") (toL "Z")⟩

/-!
Section: Claim C9: context-key irrelevance
-/

/-- C9 counterexample: the token `{{b}}` does not occur in the template
`{{a}}`, yet adding the binding `b ↦ X` to the context changes the output
of `resolve` (from `{{b}}` to `X`), because the value substituted for `a`
contains `{{b}}`. -/
theorem C9_key_irrelevance_counterexample :
    ¬ ph (toL "b") <:+: ph (toL "a") ∧
    replace_parameters (ph (toL "a")) ([(toL "a", ph (toL "b"))] ++ [(toL "b", toL "X")]) ≠
      replace_parameters (ph (toL "a")) [(toL "a", ph (toL "b"))] := by
  refine ⟨by decide, by decide⟩

/-- C9 (corrected): adding a key `k` (with any value) at the end of the
context leaves the output of `resolve` unchanged provided `{{k}}` does not
occur in the resolved output of the original context — occurrence in the
template alone is not enough, since substituted values can introduce the
token. -/
theorem C9_key_irrelevance_amended (t : PyStr) (ctx : List (PyStr × PyStr))
    (k v : PyStr) (h : ¬ ph k <:+: replace_parameters t ctx) :
    replace_parameters t (ctx ++ [(k, v)]) = replace_parameters t ctx := by
  rw [replace_parameters_append_single]
  exact pyReplace_absent (ph k) v (replace_parameters t ctx) (ph_ne_nil k) h

/-- C9 witness: a concrete template, context and fresh key. -/
theorem C9_key_irrelevance_amended_witness :
    replace_parameters (toL "xz") ([(toL "a", toL "q")] ++ [(toL "k", toL "v")]) =
      replace_parameters (toL "xz") [(toL "a", toL "q")] :=
  C9_key_irrelevance_amended (toL "xz") [(toL "a", toL "q")] (toL "k") (toL "v") (by decide)

/-!
Section: Claim C10: geometry unconditionally overwrites ext parameters
-/

/-- C10 (confirmed): after parsing `ext_json`, the `width` and `height`
keys of the extension dict are unconditionally overwritten with the
requested `output_width`/`output_height` (so the substitution context maps
them to the requested geometry whatever the caller supplied), and in a
concrete run the `{{width}}`/`{{height}}` placeholders resolve to the
requested geometry, not to the caller-supplied entry. -/
theorem C10_geometry_overwrite (parsed : List (PyStr × PyStr)) (w h : Nat)
    (title text image : PyStr) (hnd : (parsed.map Prod.fst).Nodup) :
    dictLookup (buildExtParams parsed w h) (toL "width") = some (natStr w) ∧
    dictLookup (buildExtParams parsed w h) (toL "height") = some (natStr h) ∧
    dictLookup (generate_frame_context title text image (buildExtParams parsed w h))
      (toL "width") = some (natStr w) ∧
    dictLookup (generate_frame_context title text image (buildExtParams parsed w h))
      (toL "height") = some (natStr h) ∧
    replace_parameters (ph (toL "width") ++ ph (toL "height"))
      (generate_frame_context [] [] [] (buildExtParams [(toL "width", toL "junk")] 1080 1920))
      = natStr 1080 ++ natStr 1920 := by
  have h₁ : dictLookup (buildExtParams parsed w h) (toL "width") = some (natStr w) := by
    unfold buildExtParams
    rw [dictLookup_set_ne _ _ _ _ (by decide), dictLookup_set_self]
  have h₂ : dictLookup (buildExtParams parsed w h) (toL "height") = some (natStr h) := by
    unfold buildExtParams
    rw [dictLookup_set_self]
  have hnd' : ((buildExtParams parsed w h).map Prod.fst).Nodup := by
    unfold buildExtParams
    exact nodup_keys_dictSet _ _ _ (nodup_keys_dictSet _ _ _ hnd)
  refine ⟨h₁, h₂, ?_, ?_, by decide⟩
  · exact dictLookup_update_of_mem _ _ _ _ hnd' h₁
  · exact dictLookup_update_of_mem _ _ _ _ hnd' h₂

/-- C10 witness: a caller-supplied `width` entry is overwritten by the
requested geometry. -/
theorem C10_geometry_overwrite_witness :
    dictLookup (buildExtParams [(toL "width", toL "9")] 1080 1920) (toL "width") =
      some (natStr 1080) ∧
    dictLookup (generate_frame_context (toL "t") (toL "x") (toL "i")
      (buildExtParams [(toL "width", toL "9")] 1080 1920)) (toL "height") =
      some (natStr 1920) :=
  ⟨(C10_geometry_overwrite [(toL "width", toL "9")] 1080 1920 (toL "t") (toL "x") (toL "i")
      (by decide)).1,
    (C10_geometry_overwrite [(toL "width", toL "9")] 1080 1920 (toL "t") (toL "x") (toL "i")
      (by decide)).2.2.2.1⟩

/-- Truncation toward zero agrees with the floor on nonnegative rationals. -/
theorem pyInt_eq_floor (q : ℚ) (hq : 0 ≤ q) : pyInt q = ⌊q⌋ := by
  unfold pyInt
  rw [Int.tdiv_eq_ediv (Rat.num_nonneg.mpr hq) (Int.natCast_nonneg q.den)]
  exact Rat.floor_def.symm

/-- Shape of every successful `record_video` body: the temporary directory
is never removed and the frame count is `int(duration_seconds * fps)`. -/
theorem recordBody_ok (env : VideoEnv) (title text : String) (duration : ℚ) (fps : Nat)
    (ow oh : Nat) (rs ss scs : ℚ) (sto : Bool) (ofn : String) (r : RecordOutcome)
    (h : recordBody env title text duration fps ow oh rs ss scs sto ofn = .ok r) :
    r.tempRemoved = false ∧ r.frames_count = pyInt (duration * (fps : ℚ)) := by
  unfold recordBody at h
  repeat' split at h
  all_goals first
    | exact Except.noConfusion h
    | (injection h with h; subst h; exact ⟨rfl, rfl⟩)

/-!
Section: Claim C5: video failure contract
-/

/-- C5 (confirmed): whenever the body of `record_video` raises, the
exception is not propagated and the returned triple is exactly the empty
path, frame count 0 and a JSON object whose only field is `error`. -/
theorem C5_video_failure_contract (env : VideoEnv) (title text : String) (duration : ℚ)
    (fps ow oh : Nat) (rs ss scs : ℚ) (sto : Bool) (ofn : String) (e : String)
    (h : recordBody env title text duration fps ow oh rs ss scs sto ofn = .error e) :
    record_video env title text duration fps ow oh rs ss scs sto ofn =
      { video_path := "", frames_count := 0, video_info := [("error", JVal.s e)],
        copies := [], tempRemoved := false } := by
  unfold record_video
  rw [h]

/-- C5 witness: a failing HTML write produces the degraded triple. -/
theorem C5_video_failure_contract_witness :
    record_video ⟨"/t", some "boom", .ok "", fun _ => false, [], false, 1, false, "", "ts",
        false⟩ "ti" "tx" 5 30 10 10 1 1 1 false "f" =
      { video_path := "", frames_count := 0, video_info := [("error", JVal.s "boom")],
        copies := [], tempRemoved := false } :=
  C5_video_failure_contract ⟨"/t", some "boom", .ok "", fun _ => false, [], false, 1, false,
    "", "ts", false⟩ "ti" "tx" 5 30 10 10 1 1 1 false "f" "boom" rfl

/-!
Section: Claim C8: frame-count formula
-/

/-- C8 (confirmed, on the exact-arithmetic model): every successful
`record_video` invocation with duration in `[3, 120]` and fps in `[1, 60]`
returns `frames_count = ⌊duration_seconds * fps⌋`. -/
theorem C8_frames_count_formula (env : VideoEnv) (title text : String) (duration : ℚ)
    (fps ow oh : Nat) (rs ss scs : ℚ) (sto : Bool) (ofn : String) (r : RecordOutcome)
    (h : recordBody env title text duration fps ow oh rs ss scs sto ofn = .ok r)
    (hd₁ : 3 ≤ duration) (hd₂ : duration ≤ 120) (hf₁ : 1 ≤ fps) (hf₂ : fps ≤ 60) :
    (record_video env title text duration fps ow oh rs ss scs sto ofn).frames_count =
      ⌊duration * (fps : ℚ)⌋ := by
  have hr := (recordBody_ok env title text duration fps ow oh rs ss scs sto ofn r h).2
  unfold record_video
  rw [h, hr, pyInt_eq_floor]
  have h0 : (0 : ℚ) ≤ duration := le_trans (by norm_num) hd₁
  positivity

/-- C8 witness: duration 10.0 at fps 30 yields 300 frames. -/
theorem C8_frames_count_formula_witness :
    (record_video ⟨"/t", none, .ok "/t/v.webm", fun _ => true, [], true, 0, false, "", "ts",
        false⟩ "ti" "tx" 10 30 100 100 1 1 1 false "f").frames_count = 300 :=
  (C8_frames_count_formula ⟨"/t", none, .ok "/t/v.webm", fun _ => true, [], true, 0, false,
      "", "ts", false⟩ "ti" "tx" 10 30 100 100 1 1 1 false "f" _ rfl (by norm_num)
      (by norm_num) (by norm_num) (by norm_num)).trans (by norm_num)

/-!
Section: Claim C7: temporary-workspace cleanup
-/

/-- C7 counterexample: a successful video invocation leaves the temporary
directory in place (the method contains no removal call), and a failing
still-frame invocation never reaches its removal call. -/
theorem C7_cleanup_counterexample :
    (record_video ⟨"/t", none, .ok "/t/v.webm", fun _ => true, [], true, 0, false, "", "ts",
        false⟩ "ti" "tx" 5 30 10 10 1 1 1 false "f").video_path ≠ "" ∧
    (record_video ⟨"/t", none, .ok "/t/v.webm", fun _ => true, [], true, 0, false, "", "ts",
        false⟩ "ti" "tx" 5 30 10 10 1 1 1 false "f").tempRemoved = false ∧
    (render_frame (⟨false, true, true, 0, "p"⟩ : StillEnv Nat)
      (.batched [0]) 2 2 0).rmtreeCalled = false := by
  refine ⟨by decide, rfl, rfl⟩

/-- C7 (corrected): in the still-frame path the temporary directory
removal is attempted only on success, where a removal failure is swallowed
and does not change the returned result; on a failing still-frame
invocation the removal is never reached; and in the video path the
per-invocation temporary directory is never removed at all. -/
theorem C7_cleanup_amended :
    (∀ {F : Type} (env : StillEnv F) (image : ImageTensor F) (w h c : Nat) (b : Bool),
        (render_frame { env with rmtreeOk := b } image w h c).retImage =
          (render_frame env image w h c).retImage ∧
        (render_frame { env with rmtreeOk := b } image w h c).retPath =
          (render_frame env image w h c).retPath) ∧
    (∀ {F : Type} (env : StillEnv F) (f : F) (rest : List F) (w h c : Nat),
        env.fileProduced = true → env.loadSaveOk = true →
        (render_frame env (.batched (f :: rest)) w h c).rmtreeCalled = true ∧
        (render_frame env (.batched (f :: rest)) w h c).tempRemoved = env.rmtreeOk) ∧
    (∀ {F : Type} (env : StillEnv F) (image : ImageTensor F) (w h c : Nat),
        env.fileProduced = false ∨ env.loadSaveOk = false →
        (render_frame env image w h c).rmtreeCalled = false) ∧
    (∀ (env : VideoEnv) (title text : String) (duration : ℚ) (fps ow oh : Nat)
        (rs ss scs : ℚ) (sto : Bool) (ofn : String),
        (record_video env title text duration fps ow oh rs ss scs sto ofn).tempRemoved =
          false) := by
  refine ⟨?_, ?_, ?_, ?_⟩
  · intro F env image w h c b
    cases image with
    | batched frames =>
      cases frames with
      | nil => exact ⟨rfl, rfl⟩
      | cons f rest =>
        constructor <;>
          cases hfp : env.fileProduced <;> cases hl : env.loadSaveOk <;>
            simp [render_frame, renderAfterUnbatch, generate_frame, ensure_hti, hfp, hl]
    | single f =>
      constructor <;>
        cases hfp : env.fileProduced <;> cases hl : env.loadSaveOk <;>
          simp [render_frame, renderAfterUnbatch, generate_frame, ensure_hti, hfp, hl]
  · intro F env f rest w h c hfp hl
    constructor <;>
      simp [render_frame, renderAfterUnbatch, generate_frame, ensure_hti, hfp, hl]
  · intro F env image w h c hfail
    have hcore : ∀ cur : F, (renderAfterUnbatch env cur w h c).rmtreeCalled = false := by
      intro cur
      rcases hfail with hf | hl
      · simp [renderAfterUnbatch, generate_frame, ensure_hti, hf]
      · cases hfp : env.fileProduced <;>
          simp [renderAfterUnbatch, generate_frame, ensure_hti, hfp, hl]
    cases image with
    | batched frames =>
      cases frames with
      | nil => rfl
      | cons f rest => exact hcore f
    | single f => exact hcore f
  · intro env title text duration fps ow oh rs ss scs sto ofn
    unfold record_video
    split
    next r heq =>
      exact (recordBody_ok env title text duration fps ow oh rs ss scs sto ofn r heq).1
    next e heq => rfl

/-- C7 witness: concrete instances of the amended conjuncts, including the
swallowed removal failure on a successful still render. -/
theorem C7_cleanup_amended_witness :
    (render_frame (⟨true, true, true, 4, "s"⟩ : StillEnv Nat) (.batched [1]) 3 3 0).retPath =
      (render_frame (⟨true, true, false, 4, "s"⟩ : StillEnv Nat)
        (.batched [1]) 3 3 0).retPath ∧
    (render_frame (⟨true, true, false, 4, "s"⟩ : StillEnv Nat)
      (.batched [1]) 3 3 0).rmtreeCalled = true ∧
    (render_frame (⟨false, true, true, 4, "s"⟩ : StillEnv Nat)
      (.batched [1]) 3 3 0).rmtreeCalled = false ∧
    (record_video ⟨"/t", some "x", .ok "", fun _ => false, [], false, 1, false, "", "ts",
        false⟩ "ti" "tx" 5 30 10 10 1 1 1 false "f").tempRemoved = false := by
  refine ⟨?_, ?_, ?_, ?_⟩
  · exact ((C7_cleanup_amended.1 (⟨true, true, false, 4, "s"⟩ : StillEnv Nat)
      (.batched [1]) 3 3 0 true).2).symm
  · exact (C7_cleanup_amended.2.1 (⟨true, true, false, 4, "s"⟩ : StillEnv Nat)
      1 [] 3 3 0 rfl rfl).1
  · exact C7_cleanup_amended.2.2.1 (⟨false, true, true, 4, "s"⟩ : StillEnv Nat)
      (.batched [1]) 3 3 0 (Or.inl rfl)
  · exact C7_cleanup_amended.2.2.2 ⟨"/t", some "x", .ok "", fun _ => false, [], false, 1,
      false, "", "ts", false⟩ "ti" "tx" 5 30 10 10 1 1 1 false "f"

/-!
Section: Claim C2: transcode fallback
-/

/-- C2 counterexample: when the encoder binary cannot be invoked at all
(`subprocess.run` raises `FileNotFoundError`), the dedicated handler
re-raises instead of falling back to a copy, so the transcode operation
does raise even though the recorded input file exists. -/
theorem C2_transcode_fallback_counterexample :
    convert_to_mp4 ⟨fun _ => true, false, 0⟩ "/tmp/rec.webm" "/tmp/out.mp4" 30 =
      .error (.fileNotFound "ffmpeg") := rfl

/-- C2 (corrected): when the encoder runs but exits with nonzero status
and the recorded `.webm` input still exists, the original file is copied
unchanged to a sibling path carrying the original `.webm` extension and no
exception is raised; however the fallback path is never reported to the
caller — the method returns `None`, `record_video` keeps using the
requested `.mp4` path as the final path — and when the encoder binary
cannot be invoked at all the `FileNotFoundError` propagates out of the
transcode operation. -/
theorem C2_transcode_fallback_amended :
    (∀ (env : ConvEnv) (input output : String) (fps : Nat),
        env.fileExists input = true → env.ffmpegAvailable = true →
        env.ffmpegExitCode ≠ 0 → pyEndsWith input ".webm" = true →
        ∃ o, convert_to_mp4 env input output fps = .ok o ∧
          o.copies = [(input, pyReplaceStr output ".mp4" ".webm")] ∧
          o.localOutputPath = pyReplaceStr output ".mp4" ".webm") ∧
    (∀ (env : ConvEnv) (input output : String) (fps : Nat),
        env.fileExists input = true → env.ffmpegAvailable = false →
        convert_to_mp4 env input output fps = .error (.fileNotFound "ffmpeg")) ∧
    (∀ (env : VideoEnv) (title text : String) (duration : ℚ) (fps ow oh : Nat)
        (rs ss scs : ℚ) (ofn : String) (p : String),
        env.writeFailure = none → env.recordResult = .ok p → p ≠ "" →
        env.pathExists p = true → env.ffmpegAvailable = true → env.ffmpegExitCode ≠ 0 →
        pyEndsWith p ".webm" = true →
        (record_video env title text duration fps ow oh rs ss scs false ofn).video_path =
          env.tempDir ++ "/output.mp4" ∧
        (record_video env title text duration fps ow oh rs ss scs false ofn).copies =
          [(p, pyReplaceStr (env.tempDir ++ "/output.mp4") ".mp4" ".webm")]) := by
  refine ⟨?_, ?_, ?_⟩
  · intro env input output fps h₁ h₂ h₃ h₄
    have hcv : convert_to_mp4 env input output fps =
        .ok { cmd := ["ffmpeg", "-i", input, "-c:v", "libx264", "-preset", "medium",
                "-crf", "23", "-r", toString fps, "-pix_fmt", "yuv420p", "-movflags",
                "+faststart", output, "-y"],
              copies := [(input, pyReplaceStr output ".mp4" ".webm")],
              localOutputPath := pyReplaceStr output ".mp4" ".webm" } := by
      unfold convert_to_mp4
      simp [h₁, h₂, h₃, h₄]
    exact ⟨_, hcv, rfl, rfl⟩
  · intro env input output fps h₁ h₂
    unfold convert_to_mp4
    simp [h₁, h₂]
  · intro env title text duration fps ow oh rs ss scs ofn p hw hr hp hpe hff hex hend
    unfold record_video recordBody locateVideoFile convert_to_mp4 finalVideoPath
      saveCopiesOf mp4Path
    simp [hw, hr, hp, hpe, hff, hex, hend]

/-- C2 witness: concrete instances of the amended conjuncts. -/
theorem C2_transcode_fallback_amended_witness :
    (∃ o, convert_to_mp4 ⟨fun _ => true, true, 1⟩ "rec.webm" "out.mp4" 30 = .ok o ∧
      o.copies = [("rec.webm", pyReplaceStr "out.mp4" ".mp4" ".webm")] ∧
      o.localOutputPath = pyReplaceStr "out.mp4" ".mp4" ".webm") ∧
    convert_to_mp4 ⟨fun _ => true, false, 0⟩ "rec2.webm" "out2.mp4" 30 =
      .error (.fileNotFound "ffmpeg") ∧
    (record_video ⟨"/t", none, .ok "v.webm", fun _ => true, [], true, 1, false, "", "ts",
        false⟩ "ti" "tx" 5 30 10 10 1 1 1 false "f").video_path = "/t" ++ "/output.mp4" :=
  ⟨C2_transcode_fallback_amended.1 ⟨fun _ => true, true, 1⟩ "rec.webm" "out.mp4" 30 rfl rfl
      (by decide) (by decide),
    C2_transcode_fallback_amended.2.1 ⟨fun _ => true, false, 0⟩ "rec2.webm" "out2.mp4" 30
      rfl rfl,
    (C2_transcode_fallback_amended.2.2 ⟨"/t", none, .ok "v.webm", fun _ => true, [], true, 1,
      false, "", "ts", false⟩ "ti" "tx" 5 30 10 10 1 1 1 "f" "v.webm" rfl rfl (by decide) rfl
      rfl (by decide) (by decide)).1⟩

end HTMLRenderer
